import Mathlib

/-
  Verification of the webp2gif conversion worker (src/main.py).

  The development shallowly embeds `ConversionWorker` (the batch conversion
  engine): `check_tools`, the per-file strategy cascade inside `run`
  (ffmpeg, webptools+PIL re-encode, direct PIL decode/encode), the
  precondition checks, the counters, the progress emission and the
  log/UI filtering of `ConversionWorker.log`.

  External effects (filesystem, subprocesses, the PIL library) are modelled
  by per-file environments recording the outcome of each effectful call the
  code makes; the embedding then mirrors the control flow of `run` exactly.
-/

namespace Webp2Gif

/-- Log levels used by `ConversionWorker.log` (src/main.py lines 47-60). -/
inductive Level
  | debug
  | info
  | warning
  | error
deriving DecidableEq, Repr

/-- The distinct `self.error.emit(...)` events of `ConversionWorker.run`,
one constructor per emitting site. -/
inductive ErrKind
  | missingFile      -- line 119: file does not exist
  | emptyFile        -- line 130: file size is 0
  | outputDir        -- line 144: could not create the result directory
  | frameRead        -- line 263: exception while reading an animation frame
  | noFrames         -- line 311: frames list empty after extraction
  | animSave         -- line 306: exception while saving the animated GIF
  | animWriteEmpty   -- line 298: animated GIF output missing or empty
  | staticSave       -- line 338: exception while saving the static GIF
  | staticWriteEmpty -- line 330: static GIF output missing or empty
  | pilOther         -- line 346: other exception in the PIL strategy
  | outer            -- line 354: exception in the per-file wrapper
deriving DecidableEq, Repr

/-- The three conversion strategies tried in order by `run`. -/
inductive Strategy
  | ffmpeg
  | webptools
  | pil
deriving DecidableEq, Repr

/-- Outcome of the `subprocess.run(["ffmpeg", "-version"], ...)` probe in
`check_tools` (lines 67-84). -/
inductive FfmpegProbe
  | ok          -- returncode 0
  | nonzeroExit -- command ran, nonzero exit
  | notFound    -- FileNotFoundError
  | exn         -- any other exception
deriving DecidableEq, Repr

/-- The `tools_status` dictionary built by `check_tools`. -/
structure Tools where
  ffmpeg : Bool
  webptools : Bool
deriving DecidableEq, Repr

/-- `ConversionWorker.check_tools` (lines 62-95): ffmpeg is usable only when
the version probe exits 0; the webptools entry is set to True inside a try
block that only logs, so it can never be False. -/
def check_tools (p : FfmpegProbe) : Tools :=
  { ffmpeg := match p with
      | .ok => true
      | _ => false
    webptools := true }

/-- Levels of the `self.log` calls made by `check_tools`, in order. -/
def checkToolsLogs (p : FfmpegProbe) : List Level :=
  (match p with
    | .ok => [Level.info]          -- line 74
    | .nonzeroExit => [Level.warning] -- line 77
    | .notFound => [Level.info]    -- line 80
    | .exn => [Level.error])       -- line 83
  ++ [Level.info]                  -- line 89, the webptools check log

/-- Result of `os.path.getsize(file)` (line 125): a value or an exception. -/
inductive SizeRes
  | exn
  | val (n : Nat)
deriving DecidableEq, Repr

/-- Result of `magic.from_file(file, mime=True)` (line 156): an exception, or
a MIME string that does or does not contain webp/image. -/
inductive MimeRes
  | exn
  | mime (isWebpOrImage : Bool)
deriving DecidableEq, Repr

/-- Environment for the ffmpeg strategy attempt (lines 165-184). -/
structure FfmpegEnv where
  /-- `subprocess.run(cmd, check=True, ...)` raises. -/
  raises : Bool
  /-- after the run, the output file exists with size > 0 (line 175). -/
  outputValid : Bool
deriving DecidableEq, Repr

/-- State of the temporary PNG file after the `dwebp` call (line 194). -/
inductive TempState
  | absent
  | empty
  | valid
deriving DecidableEq, Repr

/-- Environment for the webptools strategy attempt (lines 187-216). -/
structure WebpToolsEnv where
  /-- the `dwebp(...)` call raises. -/
  dwebpRaises : Bool
  /-- state of the temporary PNG after the dwebp call. -/
  tempState : TempState
  /-- `Image.open(temp_png)` or `png_img.save(output_path, "GIF")` raises. -/
  pilRaises : Bool
  /-- after the save, the output GIF exists with size > 0 (line 205). -/
  outputValid : Bool
deriving DecidableEq, Repr

/-- Environment for the direct PIL strategy attempt (lines 219-347). -/
structure PilEnv where
  /-- reading the header or `Image.open(file)` raises. -/
  openRaises : Bool
  /-- `getattr(img, "is_animated", False)` (line 239). -/
  isAnimated : Bool
  /-- `img.n_frames`. -/
  nFrames : Nat
  /-- per-frame duration metadata; `none` means the duration key is missing,
  in which case `img.info.get("duration", 100)` yields 100 (line 251). -/
  durs : List (Option Nat)
  /-- index of the frame whose seek/convert/copy raises, if any. -/
  frameFail : Option Nat
  /-- the animated multi-frame `save` call (line 280) raises. -/
  saveRaises : Bool
  /-- after the animated save, output exists with size > 0 (line 292). -/
  outputValid : Bool
  /-- the static `save` call (line 321) raises. -/
  staticSaveRaises : Bool
  /-- after the static save, output exists with size > 0 (line 324). -/
  staticOutputValid : Bool
deriving DecidableEq, Repr

/-- Per-file environment: the outcome of every effectful call `run` can make
while processing one file. -/
structure FileEnv where
  /-- `os.path.exists(file)` (line 116). -/
  existsOnDisk : Bool
  /-- `os.path.getsize(file)` (line 125). -/
  size : SizeRes
  /-- `os.makedirs(output_dir, exist_ok=True)` succeeds (line 139). -/
  mkdirOk : Bool
  /-- the MIME sniff (line 156). -/
  mimeRes : MimeRes
  ff : FfmpegEnv
  wt : WebpToolsEnv
  pil : PilEnv
deriving DecidableEq, Repr

/-- An encoded multi-frame GIF as handed to the PIL `save` call at lines
280-289. `frames` lists the source frame indices in the order written; each
frame is the RGBA source frame flattened onto an opaque white background
(lines 272-278). -/
structure GifFile where
  frames : List Nat
  durations : List Nat
  loop : Nat
  disposal : Nat
  optimize : Bool
deriving DecidableEq, Repr

/-- What the PIL strategy handed to the GIF encoder, if anything. -/
inductive GifWrite
  | animated (g : GifFile)
  | staticImage
deriving DecidableEq, Repr

/-- The animated save call (lines 280-289): all composited frames in order,
the collected duration list, `loop=0`, `disposal=2`, `optimize=False`. -/
def encodeAnimatedGif (rgbFrames : List Nat) (durations : List Nat) : GifFile :=
  { frames := rgbFrames
    durations := durations
    loop := 0
    disposal := 2
    optimize := false }

/-- Result of one strategy attempt: its log levels in order, counter deltas,
`error.emit` events, whether `converted` was set, whether a `continue` was
executed, temporary-PNG bookkeeping and the GIF handed to the encoder. -/
structure StratResult where
  logs : List Level := []
  dSucc : Nat := 0
  dFail : Nat := 0
  errs : List ErrKind := []
  converted : Bool := false
  contin : Bool := false
  tempCreated : Bool := false
  tempRemoved : Bool := false
  gifWritten : Option GifWrite := none
deriving DecidableEq, Repr

/-- The ffmpeg strategy attempt (lines 165-184). On a raised exception only a
warning is logged; on a run that produced no valid output an error and a
debug line are logged; neither path emits an error event or a counter. -/
def ffmpegStrategy (e : FfmpegEnv) : StratResult :=
  if e.raises then
    { logs := [.info, .debug, .warning] }
  else if e.outputValid then
    { logs := [.info, .debug, .info], dSucc := 1, converted := true }
  else
    { logs := [.info, .debug, .error, .debug] }

/-- The webptools strategy attempt (lines 187-216): dwebp to a temporary PNG,
then a PIL re-encode of that PNG to GIF. The temporary file is removed at
line 203, which runs only when the PNG was valid and the re-encode save
returned without raising; no branch of this strategy emits an error event. -/
def webptoolsStrategy (e : WebpToolsEnv) : StratResult :=
  if e.dwebpRaises then
    { logs := [.info, .error, .debug]
      tempCreated := e.tempState ≠ TempState.absent }
  else
    match e.tempState with
    | .valid =>
      if e.pilRaises then
        { logs := [.info, .debug, .error, .debug], tempCreated := true }
      else if e.outputValid then
        { logs := [.info, .debug, .info], dSucc := 1, converted := true
          tempCreated := true, tempRemoved := true }
      else
        { logs := [.info, .debug, .error]
          tempCreated := true, tempRemoved := true }
    | .empty =>
      { logs := [.info, .debug, .error], tempCreated := true }
    | .absent =>
      { logs := [.info, .debug, .error] }

/-- The frame index at which the extraction loop (lines 249-258) raises, if
any: the declared failing index when it lies inside the range actually read. -/
def firstFrameFail (failAt : Option Nat) (n : Nat) : Option Nat :=
  match failAt with
  | some j => if j < n then some j else none
  | none => none

/-- Duration list collected by the extraction loop: one entry per frame, with
100 substituted where the metadata is missing (line 251). -/
def collectedDurations (e : PilEnv) : List Nat :=
  (List.range e.nFrames).map (fun k => (e.durs.getD k none).getD 100)

/-- The direct PIL strategy (lines 219-347): open, detect animation, extract
frames (a frame-read exception discards the partial frame set, fails the
file and executes `continue`), composite onto white, encode. -/
def pilStrategy (e : PilEnv) : StratResult :=
  if e.openRaises then
    { logs := [.info, .error, .debug], dFail := 1, errs := [.pilOther] }
  else
    let openLogs : List Level := [.info, .debug, .debug, .debug, .debug]
    if e.isAnimated then
      match firstFrameFail e.frameFail e.nFrames with
      | some j =>
        { logs := openLogs ++ [.debug] ++ List.replicate j Level.debug
            ++ [.error, .debug]
          dFail := 1, errs := [.frameRead], contin := true }
      | none =>
        let logsA := openLogs ++ [.debug] ++ List.replicate e.nFrames Level.debug
        if e.nFrames = 0 then
          { logs := logsA ++ [.error], dFail := 1, errs := [.noFrames] }
        else if e.saveRaises then
          { logs := logsA ++ [.debug, .error, .debug]
            dFail := 1, errs := [.animSave] }
        else
          let g := encodeAnimatedGif (List.range e.nFrames) (collectedDurations e)
          if e.outputValid then
            { logs := logsA ++ [.debug, .info], dSucc := 1
              gifWritten := some (.animated g) }
          else
            { logs := logsA ++ [.debug, .error], dFail := 1
              errs := [.animWriteEmpty], gifWritten := some (.animated g) }
    else
      if e.staticSaveRaises then
        { logs := openLogs ++ [.debug, .error, .debug]
          dFail := 1, errs := [.staticSave] }
      else if e.staticOutputValid then
        { logs := openLogs ++ [.debug, .info], dSucc := 1
          gifWritten := some .staticImage }
      else
        { logs := openLogs ++ [.debug, .error], dFail := 1
          errs := [.staticWriteEmpty], gifWritten := some .staticImage }

/-- Everything `run` records about one file of the batch. -/
structure FileTrace where
  dSucc : Nat := 0
  dFail : Nat := 0
  logs : List Level := []
  errs : List ErrKind := []
  /-- the `self.progress.emit` at line 360 was reached (no `continue`). -/
  progressEmitted : Bool := true
  attempted : List Strategy := []
  chosen : Option Strategy := none
  tempCreated : Bool := false
  tempRemoved : Bool := false
  gifWritten : Option GifWrite := none
deriving DecidableEq, Repr

/-- Third stage of the cascade (lines 218-347): the PIL strategy, attempted
whenever no earlier strategy set `converted`. -/
def pilPhase (env : FileEnv) (logs : List Level) (att : List Strategy)
    (tc tr : Bool) : FileTrace :=
  let s := pilStrategy env.pil
  { dSucc := s.dSucc
    dFail := s.dFail
    logs := logs ++ s.logs
    errs := s.errs
    progressEmitted := !s.contin
    attempted := att ++ [.pil]
    chosen := if s.dSucc ≠ 0 then some .pil else none
    tempCreated := tc
    tempRemoved := tr
    gifWritten := s.gifWritten }

/-- Second stage of the cascade (lines 187-216): the webptools strategy,
attempted when `not converted and has_webptools`. -/
def webptoolsPhase (tools : Tools) (env : FileEnv) (logs : List Level)
    (att : List Strategy) : FileTrace :=
  if tools.webptools then
    let s := webptoolsStrategy env.wt
    if s.converted then
      { dSucc := s.dSucc
        logs := logs ++ s.logs
        attempted := att ++ [.webptools]
        chosen := some .webptools
        tempCreated := s.tempCreated
        tempRemoved := s.tempRemoved }
    else
      pilPhase env (logs ++ s.logs) (att ++ [.webptools]) s.tempCreated s.tempRemoved
  else
    pilPhase env logs att false false

/-- The strategy cascade (lines 163-347), entered once the preconditions
pass: ffmpeg if available, then webptools, then direct PIL, each attempted
only while `converted` is still False. -/
def cascade (tools : Tools) (env : FileEnv) (logs0 : List Level) : FileTrace :=
  if tools.ffmpeg then
    let s := ffmpegStrategy env.ff
    if s.converted then
      { dSucc := s.dSucc
        logs := logs0 ++ s.logs
        attempted := [.ffmpeg]
        chosen := some .ffmpeg }
    else
      webptoolsPhase tools env (logs0 ++ s.logs) [.ffmpeg]
  else
    webptoolsPhase tools env logs0 []

/-- `file.lower().endswith(".webp")` (line 111). -/
def isWebpName (s : String) : Bool :=
  List.isSuffixOf ".webp".data (s.data.map Char.toLower)

/-- The size check fails the file only when `getsize` returned 0 (line 127);
an exception from `getsize` is logged and ignored (lines 133-134). -/
def sizeIsZero : SizeRes → Bool
  | .val 0 => true
  | _ => false

/-- Log levels of the MIME sniff step (lines 154-161). -/
def mimeLogs : MimeRes → List Level
  | .mime true => [Level.debug]
  | .mime false => [Level.debug, Level.warning]
  | .exn => [Level.warning]

/-- One iteration of the batch loop of `run` (lines 110-360) for one file:
the extension gate, the precondition checks, then the cascade; a non-WebP
name is only logged as a warning (line 358) and still reaches the progress
emit. -/
def processFile (tools : Tools) (path : String) (env : FileEnv) : FileTrace :=
  if isWebpName path then
    if !env.existsOnDisk then
      { dFail := 1, logs := [.info, .error], errs := [.missingFile]
        progressEmitted := false }
    else
      let logsSize : List Level :=
        match env.size with
        | .exn => [.info, .error]
        | .val _ => [.info, .debug]
      if sizeIsZero env.size then
        { dFail := 1, logs := logsSize ++ [.error], errs := [.emptyFile]
          progressEmitted := false }
      else if !env.mkdirOk then
        { dFail := 1, logs := logsSize ++ [.error], errs := [.outputDir]
          progressEmitted := false }
      else
        cascade tools env (logsSize ++ [.debug, .debug] ++ mimeLogs env.mimeRes)
  else
    { logs := [.warning] }

/-- The progress values emitted by the loop: `int((i / total) * 100)` at line
360 for each file index `i` (1-based) whose iteration was not cut short by a
`continue`. -/
def progressList (total : Nat) : Nat → List FileTrace → List Nat
  | _, [] => []
  | i, t :: ts =>
    (if t.progressEmitted then [(i * 100) / total] else [])
      ++ progressList total (i + 1) ts

/-- One formatted log line: its level, and whether it is the final summary
line of line 362. -/
structure LogLine where
  level : Level
  isSummary : Bool
deriving DecidableEq, Repr

/-- The UI-propagation condition of `ConversionWorker.log` (line 59):
`self.debug_mode or level == "error" or level == "warning"`. -/
def logEmitsToUI (debug : Bool) (lvl : Level) : Bool :=
  debug || lvl == Level.error || lvl == Level.warning

/-- Aggregate outcome of `ConversionWorker.run` over a batch. -/
structure RunResult where
  success : Nat
  failed : Nat
  total : Nat
  traces : List FileTrace
  progressSeq : List Nat
  allLogs : List LogLine
  uiLogs : List LogLine
deriving DecidableEq, Repr

/-- The per-file traces of one batch. -/
def batchTraces (tools : Tools) (files : List (String × FileEnv)) :
    List FileTrace :=
  files.map (fun pe => processFile tools pe.1 pe.2)

/-- All `self.log` calls of the run before the summary, in order: the
`check_tools` logs, the batch-start info line (line 108), then the per-file
logs. -/
def allLevelsOf (probe : FfmpegProbe) (traces : List FileTrace) : List Level :=
  checkToolsLogs probe ++ [Level.info] ++ (traces.map (fun t => t.logs)).flatten

/-- `ConversionWorker.run` (lines 97-364): probe the tools, process every
file in order, emit progress after each non-skipped iteration, log the final
summary (success, failed, total) at info level, and filter the UI-visible
stream through `logEmitsToUI`. -/
def runWorker (probe : FfmpegProbe) (debug : Bool)
    (files : List (String × FileEnv)) : RunResult :=
  let tools := check_tools probe
  let traces := batchTraces tools files
  let total := files.length
  let logsAll : List LogLine :=
    (allLevelsOf probe traces).map (fun l => { level := l, isSummary := false })
      ++ [{ level := Level.info, isSummary := true }]
  { success := (traces.map (fun t => t.dSucc)).sum
    failed := (traces.map (fun t => t.dFail)).sum
    total := total
    traces := traces
    progressSeq := progressList total 1 traces
    allLogs := logsAll
    uiLogs := logsAll.filter (fun l => logEmitsToUI debug l.level) }

/-! Concrete environments used to exercise the model, mirroring the scenario
files of the specification. -/

/-- An animated WebP of 5 frames with duration metadata
[100, 100, 150, missing, 100]; ffmpeg produces no valid output, dwebp
produces no PNG, and the direct PIL path succeeds. -/
def envAnimated5 : FileEnv :=
  { existsOnDisk := true
    size := .val 2048
    mkdirOk := true
    mimeRes := .mime true
    ff := { raises := false, outputValid := false }
    wt := { dwebpRaises := false, tempState := .absent, pilRaises := false
            outputValid := false }
    pil := { openRaises := false, isAnimated := true, nFrames := 5
             durs := [some 100, some 100, some 150, none, some 100]
             frameFail := none, saveRaises := false, outputValid := true
             staticSaveRaises := false, staticOutputValid := false } }

/-- The same file, but absent from disk. -/
def envMissing : FileEnv :=
  { envAnimated5 with existsOnDisk := false }

/-- The same file, but with size 0. -/
def envEmptyFile : FileEnv :=
  { envAnimated5 with size := .val 0 }

/-- The same file, but dwebp produces a valid temporary PNG and the PIL
re-encode of that PNG raises. -/
def envTempLeak : FileEnv :=
  { envAnimated5 with
      wt := { dwebpRaises := false, tempState := .valid, pilRaises := true
              outputValid := false } }

/-- The same file, but ffmpeg runs and produces a valid output. -/
def envFfmpegOk : FileEnv :=
  { envAnimated5 with ff := { raises := false, outputValid := true } }

/-- The same file, but querying its size raises. -/
def envSizeExn : FileEnv :=
  { envAnimated5 with size := .exn }

/-- The animated PIL environment with a frame-read exception at frame 2. -/
def pilFrameFail2 : PilEnv :=
  { envAnimated5.pil with frameFail := some 2 }

/-! Helper lemmas about the embedding. -/

/-- The ffmpeg attempt sets `converted` exactly when the run did not raise
and the output verified as non-empty. -/
theorem ffmpegStrategy_converted (e : FfmpegEnv) :
    (ffmpegStrategy e).converted = (!e.raises && e.outputValid) := by
  cases hr : e.raises <;> cases hv : e.outputValid <;>
    simp [ffmpegStrategy, hr, hv]

/-- When webptools is usable, the tail of the cascade attempts webptools and
then possibly the PIL strategy, in that order. -/
theorem webptoolsPhase_attempted (tools : Tools) (env : FileEnv)
    (logs : List Level) (att : List Strategy) (hwt : tools.webptools = true) :
    (webptoolsPhase tools env logs att).attempted
        = att ++ [Strategy.webptools] ∨
    (webptoolsPhase tools env logs att).attempted
        = att ++ [Strategy.webptools, Strategy.pil] := by
  cases hc : (webptoolsStrategy env.wt).converted
  · right
    simp [webptoolsPhase, pilPhase, hwt, hc]
  · left
    simp [webptoolsPhase, hwt, hc]

/-- The cascade always attempts at least one strategy. -/
theorem cascade_attempted_ne_nil (tools : Tools) (env : FileEnv)
    (logs0 : List Level) :
    (cascade tools env logs0).attempted ≠ [] := by
  simp only [cascade, webptoolsPhase, pilPhase]
  repeat' split
  all_goals simp

/-- Lines accumulated before the cascade stay in its log output. -/
theorem cascade_logs_mem (tools : Tools) (env : FileEnv)
    (logs0 : List Level) (x : Level) (hx : x ∈ logs0) :
    x ∈ (cascade tools env logs0).logs := by
  simp only [cascade, webptoolsPhase, pilPhase]
  repeat' split
  all_goals simp [hx]

/-- The PIL strategy never emits the precondition error events. -/
theorem pilStrategy_errs_not_precondition (e : PilEnv) :
    ErrKind.emptyFile ∉ (pilStrategy e).errs ∧
    ErrKind.missingFile ∉ (pilStrategy e).errs := by
  simp only [pilStrategy]
  repeat' split
  all_goals simp

/-- Error events of the cascade all come from the PIL strategy. -/
theorem cascade_errs_from_pil (tools : Tools) (env : FileEnv)
    (logs0 : List Level) :
    (cascade tools env logs0).errs = [] ∨
    (cascade tools env logs0).errs = (pilStrategy env.pil).errs := by
  simp only [cascade, webptoolsPhase, pilPhase]
  repeat' split
  all_goals simp

/-- Every emitted progress value comes from a 1-based file index in range. -/
theorem progressList_mem (total : Nat) :
    ∀ (ts : List FileTrace) (i v : Nat), v ∈ progressList total i ts →
      ∃ j, i ≤ j ∧ j < i + ts.length ∧ v = (j * 100) / total := by
  intro ts
  induction ts with
  | nil =>
    intro i v h
    simp [progressList] at h
  | cons t ts ih =>
    intro i v h
    cases hp : t.progressEmitted <;> simp [progressList, hp] at h
    · obtain ⟨j, h1, h2, h3⟩ := ih (i + 1) v h
      exact ⟨j, by omega, by simp only [List.length_cons]; omega, h3⟩
    · rcases h with h | h
      · exact ⟨i, Nat.le_refl i, by simp only [List.length_cons]; omega, h⟩
      · obtain ⟨j, h1, h2, h3⟩ := ih (i + 1) v h
        exact ⟨j, by omega, by simp only [List.length_cons]; omega, h3⟩

/-- The emitted progress values are non-decreasing. -/
theorem progressList_pairwise (total : Nat) :
    ∀ (ts : List FileTrace) (i : Nat),
      List.Pairwise (· ≤ ·) (progressList total i ts) := by
  intro ts
  induction ts with
  | nil =>
    intro i
    simp [progressList]
  | cons t ts ih =>
    intro i
    cases hp : t.progressEmitted
    · simpa [progressList, hp] using ih (i + 1)
    · simp only [progressList, hp, if_pos rfl, List.singleton_append]
      refine List.pairwise_cons.mpr ⟨?_, ih (i + 1)⟩
      intro v hv
      obtain ⟨j, h1, _, h3⟩ := progressList_mem total ts (i + 1) v hv
      subst h3
      exact Nat.div_le_div_right (by omega)

/-- If the final file of the batch reaches the progress emit, the last
emitted value is the one for the final index. -/
theorem progressList_getLast (total : Nat) :
    ∀ (ts : List FileTrace) (i : Nat) (t : FileTrace),
      ts.getLast? = some t → t.progressEmitted = true →
      (progressList total i ts).getLast?
        = some (((i + ts.length - 1) * 100) / total) := by
  intro ts
  induction ts with
  | nil =>
    intro i t h
    cases h
  | cons x ts ih =>
    intro i t hlast hemit
    cases ts with
    | nil =>
      have hx : x = t := by simpa using hlast
      subst hx
      simp [progressList, hemit]
    | cons y ts2 =>
      have h2 : (y :: ts2).getLast? = some t := by
        rwa [List.getLast?_cons_cons] at hlast
      have ihr := ih (i + 1) t h2 hemit
      have hne : progressList total (i + 1) (y :: ts2) ≠ [] := by
        intro h0
        rw [h0] at ihr
        cases ihr
      have harith : (i + 1) + (y :: ts2).length - 1
          = i + (x :: y :: ts2).length - 1 := by
        simp only [List.length_cons]
        omega
      rw [harith] at ihr
      have hsplit : progressList total i (x :: y :: ts2)
          = (if x.progressEmitted then [(i * 100) / total] else [])
            ++ progressList total (i + 1) (y :: ts2) := rfl
      rw [hsplit, List.getLast?_append_of_ne_nil _ hne]
      exact ihr

/-- With debug off, a line propagates to the UI exactly when its level is
warning or error. -/
theorem logEmitsToUI_false_iff (lvl : Level) :
    logEmitsToUI false lvl = true ↔
      (lvl = Level.warning ∨ lvl = Level.error) := by
  cases lvl <;> simp [logEmitsToUI]

/-- The only summary-flagged line in the full log stream is the final
summary, and it is at info level. -/
theorem runWorker_summary_lines (probe : FfmpegProbe) (debug : Bool)
    (files : List (String × FileEnv)) :
    ∀ l ∈ (runWorker probe debug files).allLogs,
      l.isSummary = true → l = { level := Level.info, isSummary := true } := by
  intro l hl hsum
  have ha : (runWorker probe debug files).allLogs
      = (allLevelsOf probe (batchTraces (check_tools probe) files)).map
          (fun l => { level := l, isSummary := false })
        ++ [{ level := Level.info, isSummary := true }] := rfl
  rw [ha] at hl
  rcases List.mem_append.mp hl with h | h
  · obtain ⟨x, _, rfl⟩ := List.mem_map.mp h
    cases hsum
  · simpa using h

/-! Claim theorems. -/

/-- Claim C1, counterexample: for the batch of one convertible animated WebP
file and one non-WebP file, the summary is success=1, failed=0 but total=2,
not total=1 — `total` is the length of the submitted list (line 104), so a
skipped file is included in the reported total. -/
theorem C1_counterexample :
    (runWorker .notFound false
        [("a.webp", envAnimated5), ("b.txt", envAnimated5)]).success = 1 ∧
    (runWorker .notFound false
        [("a.webp", envAnimated5), ("b.txt", envAnimated5)]).failed = 0 ∧
    (runWorker .notFound false
        [("a.webp", envAnimated5), ("b.txt", envAnimated5)]).total = 2 ∧
    (2 : Nat) ≠ 1 := by
  decide

/-- Claim C1, amended: a path whose name does not end in the WebP extension
changes neither counter, produces exactly one warning and no error event,
but it is counted in the reported total, which is always the full length of
the submitted batch; the scenario batch reports success=1, failed=0,
total=2. -/
theorem C1_amended :
    (∀ (tools : Tools) (path : String) (env : FileEnv),
      isWebpName path = false →
        (processFile tools path env).dSucc = 0 ∧
        (processFile tools path env).dFail = 0 ∧
        (processFile tools path env).logs = [Level.warning] ∧
        (processFile tools path env).errs = []) ∧
    (∀ (probe : FfmpegProbe) (debug : Bool)
        (files : List (String × FileEnv)),
      (runWorker probe debug files).total = files.length) ∧
    ((runWorker .notFound false
        [("a.webp", envAnimated5), ("b.txt", envAnimated5)]).success = 1 ∧
     (runWorker .notFound false
        [("a.webp", envAnimated5), ("b.txt", envAnimated5)]).failed = 0 ∧
     (runWorker .notFound false
        [("a.webp", envAnimated5), ("b.txt", envAnimated5)]).total = 2) := by
  refine ⟨?_, ?_, by decide⟩
  · intro tools path env h
    simp [processFile, h]
  · intro probe debug files
    rfl

/-- Claim C1, witness: the amended statement applied to the non-WebP file
of the scenario batch. -/
theorem C1_witness :
    (processFile { ffmpeg := false, webptools := true } "b.txt"
        envAnimated5).dSucc = 0 ∧
    (processFile { ffmpeg := false, webptools := true } "b.txt"
        envAnimated5).dFail = 0 ∧
    (processFile { ffmpeg := false, webptools := true } "b.txt"
        envAnimated5).logs = [Level.warning] ∧
    (processFile { ffmpeg := false, webptools := true } "b.txt"
        envAnimated5).errs = [] :=
  C1_amended.1 { ffmpeg := false, webptools := true } "b.txt" envAnimated5
    (by decide)

/-- Claim C2, counterexample: a batch of one WebP file that does not exist
emits no progress event at all — the missing-file branch executes `continue`
(line 121) and skips the progress emit of line 360, so the progress sequence
is empty and in particular does not end at 100. -/
theorem C2_counterexample :
    (runWorker .notFound false [("a.webp", envMissing)]).progressSeq = [] ∧
    (runWorker .notFound false [("a.webp", envMissing)]).total = 1 ∧
    (runWorker .notFound false [("a.webp", envMissing)]).failed = 1 := by
  decide

/-- Claim C2, amended: the emitted progress percentages always form a
non-decreasing sequence bounded by 100, but an event is emitted only after
files whose iteration does not execute `continue` (files failing the
existence, empty-file or output-directory preconditions, or failing during
animated frame extraction, emit none); when the final file of the batch does
reach the progress emit, the last emitted value is 100. -/
theorem C2_amended (probe : FfmpegProbe) (debug : Bool)
    (files : List (String × FileEnv)) :
    List.Pairwise (· ≤ ·) (runWorker probe debug files).progressSeq ∧
    (∀ v ∈ (runWorker probe debug files).progressSeq, v ≤ 100) ∧
    (∀ t, (runWorker probe debug files).traces.getLast? = some t →
      t.progressEmitted = true →
      (runWorker probe debug files).progressSeq.getLast? = some 100) := by
  have hp : (runWorker probe debug files).progressSeq
      = progressList files.length 1
          (batchTraces (check_tools probe) files) := rfl
  have ht : (runWorker probe debug files).traces
      = batchTraces (check_tools probe) files := rfl
  have hlen : (batchTraces (check_tools probe) files).length
      = files.length := by
    simp [batchTraces]
  refine ⟨?_, ?_, ?_⟩
  · rw [hp]
    exact progressList_pairwise _ _ _
  · intro v hv
    rw [hp] at hv
    obtain ⟨j, h1, h2, h3⟩ := progressList_mem files.length _ 1 v hv
    subst h3
    rw [hlen] at h2
    have hpos : 0 < files.length := by omega
    calc (j * 100) / files.length
        ≤ (files.length * 100) / files.length :=
          Nat.div_le_div_right (by omega)
      _ = 100 := Nat.mul_div_cancel_left 100 hpos
  · intro t hlast hemit
    rw [ht] at hlast
    rw [hp]
    have hres := progressList_getLast files.length
      (batchTraces (check_tools probe) files) 1 t hlast hemit
    have hne : batchTraces (check_tools probe) files ≠ [] := by
      intro h0
      rw [h0] at hlast
      cases hlast
    have hpos : 0 < files.length := by
      rw [← hlen]
      exact List.length_pos.mpr hne
    rw [hlen] at hres
    have harith : 1 + files.length - 1 = files.length := by omega
    rw [harith] at hres
    rw [hres, Nat.mul_div_cancel_left 100 hpos]

/-- Claim C2, witness: the amended statement applied to a batch whose single
(skipped) file reaches the progress emit, ending the sequence at 100. -/
theorem C2_witness :
    (runWorker .notFound false
        [("b.txt", envAnimated5)]).progressSeq.getLast? = some 100 :=
  (C2_amended .notFound false [("b.txt", envAnimated5)]).2.2
    (processFile (check_tools .notFound) "b.txt" envAnimated5)
    (by decide) (by decide)

/-- Claim C3, counterexample: when dwebp produced a valid temporary PNG and
the PIL re-encode of it raises, the exception handler at line 213 is reached
before `os.remove(temp_png)` (line 203) ever runs, so the temporary file is
created but never deleted. -/
theorem C3_counterexample :
    (processFile { ffmpeg := false, webptools := true } "a.webp"
        envTempLeak).tempCreated = true ∧
    (processFile { ffmpeg := false, webptools := true } "a.webp"
        envTempLeak).tempRemoved = false := by
  decide

/-- Claim C3, amended: the temporary PNG is removed exactly when the dwebp
call returned, the PNG verified as existing and non-empty, and the PIL
re-encode save returned without raising; on a re-encode exception, or when
the PNG exists but is empty, the file is created and left behind. -/
theorem C3_amended (w : WebpToolsEnv) :
    ((webptoolsStrategy w).tempRemoved = true ↔
      (w.dwebpRaises = false ∧ w.tempState = TempState.valid ∧
        w.pilRaises = false)) ∧
    ((webptoolsStrategy w).tempCreated = true ↔
      w.tempState ≠ TempState.absent) := by
  obtain ⟨d, ts, p, o⟩ := w
  cases d <;> cases ts <;> cases p <;> cases o <;>
    simp [webptoolsStrategy]

/-- Claim C3, witness: the amended statement applied to a run where
decode, re-encode and verification all succeed, so the file is removed. -/
theorem C3_witness :
    (webptoolsStrategy
        { dwebpRaises := false, tempState := TempState.valid
          pilRaises := false, outputValid := true }).tempRemoved = true :=
  (C3_amended
      { dwebpRaises := false, tempState := TempState.valid
        pilRaises := false, outputValid := true }).1.mpr ⟨rfl, rfl, rfl⟩

/-- Claim C4, counterexample: with debug off, the final summary line (logged
at info level, line 363) does not propagate to the caller-visible stream:
for an empty batch nothing at all reaches the UI even though the summary is
in the full log stream. -/
theorem C4_counterexample :
    ({ level := Level.info, isSummary := true } : LogLine)
        ∈ (runWorker .notFound false []).allLogs ∧
    (runWorker .notFound false []).uiLogs = [] := by
  decide

/-- Claim C4, amended: with debug on every log line propagates to the
caller-visible stream; with debug off exactly the warning-level and
error-level lines propagate — the final summary, being an info-level line,
is among the lines that do not propagate. -/
theorem C4_amended (probe : FfmpegProbe) (debug : Bool)
    (files : List (String × FileEnv)) :
    ({ level := Level.info, isSummary := true } : LogLine)
        ∈ (runWorker probe debug files).allLogs ∧
    (debug = true →
      (runWorker probe debug files).uiLogs
        = (runWorker probe debug files).allLogs) ∧
    (debug = false →
      (∀ l ∈ (runWorker probe debug files).uiLogs,
        (l.level = Level.warning ∨ l.level = Level.error) ∧
          l.isSummary = false) ∧
      (∀ l ∈ (runWorker probe debug files).allLogs,
        (l.level = Level.warning ∨ l.level = Level.error) →
          l ∈ (runWorker probe debug files).uiLogs)) := by
  have ha : (runWorker probe debug files).allLogs
      = (allLevelsOf probe (batchTraces (check_tools probe) files)).map
          (fun l => { level := l, isSummary := false })
        ++ [{ level := Level.info, isSummary := true }] := rfl
  have hu : (runWorker probe debug files).uiLogs
      = (runWorker probe debug files).allLogs.filter
          (fun l => logEmitsToUI debug l.level) := rfl
  refine ⟨?_, ?_, ?_⟩
  · rw [ha]
    exact List.mem_append_right _ (List.mem_singleton.mpr rfl)
  · intro hd
    subst hd
    rw [hu]
    simp [logEmitsToUI]
  · intro hd
    subst hd
    constructor
    · intro l hl
      rw [hu] at hl
      obtain ⟨hmem, hpred⟩ := List.mem_filter.mp hl
      have hlev := (logEmitsToUI_false_iff l.level).mp hpred
      refine ⟨hlev, ?_⟩
      cases hsum : l.isSummary
      · rfl
      · have := runWorker_summary_lines probe false files l hmem hsum
        rw [this] at hlev
        rcases hlev with h | h <;> cases h
    · intro l hl hlev
      rw [hu]
      exact List.mem_filter.mpr ⟨hl, (logEmitsToUI_false_iff l.level).mpr hlev⟩

/-- Claim C4, witness: the amended statement applied with debug on, where
the caller-visible stream is the full stream. -/
theorem C4_witness :
    (runWorker .ok true []).uiLogs = (runWorker .ok true []).allLogs :=
  (C4_amended .ok true []).2.1 rfl

/-- Claim C5: a WebP-named file that exists with size 0 fails with the
empty-file error — the failure counter is incremented, exactly that error
event is emitted, no conversion strategy is attempted, and the iteration is
cut short before the progress emit (lines 127-132). -/
theorem C5_empty_file_no_strategy (tools : Tools) (path : String)
    (env : FileEnv) (hweb : isWebpName path = true)
    (hex : env.existsOnDisk = true) (hsz : env.size = SizeRes.val 0) :
    (processFile tools path env).dFail = 1 ∧
    (processFile tools path env).dSucc = 0 ∧
    (processFile tools path env).errs = [ErrKind.emptyFile] ∧
    (processFile tools path env).attempted = [] ∧
    (processFile tools path env).progressEmitted = false := by
  simp [processFile, hweb, hex, hsz, sizeIsZero]

/-- Claim C5, witness: the empty-file scenario file. -/
theorem C5_witness :
    (processFile { ffmpeg := true, webptools := true } "c.webp"
        envEmptyFile).dFail = 1 ∧
    (processFile { ffmpeg := true, webptools := true } "c.webp"
        envEmptyFile).dSucc = 0 ∧
    (processFile { ffmpeg := true, webptools := true } "c.webp"
        envEmptyFile).errs = [ErrKind.emptyFile] ∧
    (processFile { ffmpeg := true, webptools := true } "c.webp"
        envEmptyFile).attempted = [] ∧
    (processFile { ffmpeg := true, webptools := true } "c.webp"
        envEmptyFile).progressEmitted = false :=
  C5_empty_file_no_strategy { ffmpeg := true, webptools := true } "c.webp"
    envEmptyFile (by decide) rfl rfl

/-- Claim C6: when ffmpeg is reported available and its attempt neither
raises nor fails verification, the file succeeds with ffmpeg as the single
attempted and chosen strategy — neither the webptools bridge nor the PIL
path is invoked (lines 164-187, 219: both are guarded by `not converted`). -/
theorem C6_first_success_wins (tools : Tools) (path : String) (env : FileEnv)
    (hweb : isWebpName path = true) (hex : env.existsOnDisk = true)
    (hsz : sizeIsZero env.size = false) (hmk : env.mkdirOk = true)
    (hff : tools.ffmpeg = true) (hr : env.ff.raises = false)
    (hv : env.ff.outputValid = true) :
    (processFile tools path env).attempted = [Strategy.ffmpeg] ∧
    (processFile tools path env).chosen = some Strategy.ffmpeg ∧
    (processFile tools path env).dSucc = 1 ∧
    (processFile tools path env).dFail = 0 := by
  simp [processFile, cascade, ffmpegStrategy, hweb, hex, hsz, hmk, hff, hr, hv]

/-- Claim C6, witness: a static file with a functional ffmpeg. -/
theorem C6_witness :
    (processFile { ffmpeg := true, webptools := true } "d.webp"
        envFfmpegOk).attempted = [Strategy.ffmpeg] ∧
    (processFile { ffmpeg := true, webptools := true } "d.webp"
        envFfmpegOk).chosen = some Strategy.ffmpeg ∧
    (processFile { ffmpeg := true, webptools := true } "d.webp"
        envFfmpegOk).dSucc = 1 ∧
    (processFile { ffmpeg := true, webptools := true } "d.webp"
        envFfmpegOk).dFail = 0 :=
  C6_first_success_wins { ffmpeg := true, webptools := true } "d.webp"
    envFfmpegOk (by decide) rfl rfl rfl rfl rfl rfl

/-- Claim C7: an animated input of N frames converted through the PIL path
without failures is encoded as a GIF with exactly N frames in original
order, the per-frame duration list with 100 substituted for missing
metadata, loop=0 (infinite), disposal=2 (restore to background) and palette
optimization disabled (lines 249-289). -/
theorem C7_animated_encode (e : PilEnv)
    (ho : e.openRaises = false) (ha : e.isAnimated = true)
    (hf : firstFrameFail e.frameFail e.nFrames = none)
    (hn : e.nFrames ≠ 0) (hs : e.saveRaises = false)
    (hv : e.outputValid = true) :
    (pilStrategy e).gifWritten =
      some (GifWrite.animated
        { frames := List.range e.nFrames
          durations := (List.range e.nFrames).map
            (fun k => (e.durs.getD k none).getD 100)
          loop := 0
          disposal := 2
          optimize := false }) ∧
    (pilStrategy e).dSucc = 1 ∧
    (pilStrategy e).dFail = 0 := by
  simp [pilStrategy, encodeAnimatedGif, collectedDurations,
    ho, ha, hf, hn, hs, hv]

/-- Claim C7, witness: the 5-frame scenario file with duration metadata
[100, 100, 150, missing, 100] encodes to durations [100, 100, 150, 100,
100]. -/
theorem C7_witness :
    (pilStrategy envAnimated5.pil).gifWritten =
      some (GifWrite.animated
        { frames := [0, 1, 2, 3, 4]
          durations := [100, 100, 150, 100, 100]
          loop := 0
          disposal := 2
          optimize := false }) ∧
    (pilStrategy envAnimated5.pil).dSucc = 1 := by
  have h := C7_animated_encode envAnimated5.pil rfl rfl rfl (by decide)
    rfl rfl
  exact ⟨by rw [h.1]; decide, h.2.1⟩

/-- Claim C8: an exception while reading any frame of an animated input
fails the whole file — the failure counter is incremented, the frame-read
error event is emitted, no GIF is handed to the encoder from the partial
frame set, the iteration executes `continue` (lines 259-265) — and the
batch goes on: the run always produces one trace per submitted file. -/
theorem C8_frame_read_failure (e : PilEnv) (j : Nat)
    (ho : e.openRaises = false) (ha : e.isAnimated = true)
    (hj : e.frameFail = some j) (hlt : j < e.nFrames) :
    ((pilStrategy e).dFail = 1 ∧
     (pilStrategy e).dSucc = 0 ∧
     (pilStrategy e).errs = [ErrKind.frameRead] ∧
     (pilStrategy e).gifWritten = none ∧
     (pilStrategy e).contin = true) ∧
    (∀ (probe : FfmpegProbe) (debug : Bool)
        (files : List (String × FileEnv)),
      (runWorker probe debug files).traces.length = files.length) := by
  constructor
  · simp [pilStrategy, firstFrameFail, ho, ha, hj, hlt]
  · intro probe debug files
    simp [runWorker, batchTraces]

/-- Claim C8, witness: a frame-read failure at frame 2 of the 5-frame file,
in a batch that still processes its one file. -/
theorem C8_witness :
    ((pilStrategy pilFrameFail2).dFail = 1 ∧
     (pilStrategy pilFrameFail2).dSucc = 0 ∧
     (pilStrategy pilFrameFail2).errs = [ErrKind.frameRead] ∧
     (pilStrategy pilFrameFail2).gifWritten = none ∧
     (pilStrategy pilFrameFail2).contin = true) ∧
    (runWorker .notFound false
        [("a.webp", envAnimated5)]).traces.length = 1 := by
  have h := C8_frame_read_failure pilFrameFail2 2 rfl rfl rfl (by decide)
  exact ⟨h.1, h.2 .notFound false [("a.webp", envAnimated5)]⟩

/-- When ffmpeg is unavailable or its attempt did not set `converted`, and
webptools is usable, the attempted-strategy list takes one of the four
shapes in which webptools appears, before PIL whenever PIL appears. -/
theorem cascade_attempted_after_ffmpeg_miss (tools : Tools) (env : FileEnv)
    (logs0 : List Level) (hwt : tools.webptools = true)
    (h : tools.ffmpeg = false ∨ (ffmpegStrategy env.ff).converted = false) :
    (cascade tools env logs0).attempted = [Strategy.webptools] ∨
    (cascade tools env logs0).attempted
        = [Strategy.webptools, Strategy.pil] ∨
    (cascade tools env logs0).attempted
        = [Strategy.ffmpeg, Strategy.webptools] ∨
    (cascade tools env logs0).attempted
        = [Strategy.ffmpeg, Strategy.webptools, Strategy.pil] := by
  cases hf : tools.ffmpeg
  · have hcas : cascade tools env logs0
        = webptoolsPhase tools env logs0 [] := by
      simp [cascade, hf]
    rw [hcas]
    rcases webptoolsPhase_attempted tools env logs0 [] hwt with h2 | h2
    · left
      simpa using h2
    · right; left
      simpa using h2
  · have hnc : (ffmpegStrategy env.ff).converted = false := by
      rcases h with h | h
      · rw [hf] at h
        cases h
      · exact h
    have hcas : cascade tools env logs0
        = webptoolsPhase tools env
            (logs0 ++ (ffmpegStrategy env.ff).logs) [Strategy.ffmpeg] := by
      simp [cascade, hf, hnc]
    rw [hcas]
    rcases webptoolsPhase_attempted tools env
        (logs0 ++ (ffmpegStrategy env.ff).logs) [Strategy.ffmpeg] hwt
      with h2 | h2
    · right; right; left
      simpa using h2
    · right; right; right
      simpa using h2

/-- Claim C9: the webptools availability check can never report the bridge
unusable (its try block only logs, lines 86-93), and whenever the
preconditions pass and ffmpeg is unavailable, raised, or produced no
verified output, the webptools strategy is attempted, and any PIL attempt
comes only after it. -/
theorem C9_webptools_always_usable :
    (∀ p : FfmpegProbe, (check_tools p).webptools = true) ∧
    (∀ (p : FfmpegProbe) (path : String) (env : FileEnv),
      isWebpName path = true → env.existsOnDisk = true →
      sizeIsZero env.size = false → env.mkdirOk = true →
      ((check_tools p).ffmpeg = false ∨ env.ff.raises = true ∨
        env.ff.outputValid = false) →
      ((processFile (check_tools p) path env).attempted
          = [Strategy.webptools] ∨
       (processFile (check_tools p) path env).attempted
          = [Strategy.webptools, Strategy.pil] ∨
       (processFile (check_tools p) path env).attempted
          = [Strategy.ffmpeg, Strategy.webptools] ∨
       (processFile (check_tools p) path env).attempted
          = [Strategy.ffmpeg, Strategy.webptools, Strategy.pil])) := by
  have hwt : ∀ p : FfmpegProbe, (check_tools p).webptools = true := by
    intro p
    cases p <;> rfl
  refine ⟨hwt, ?_⟩
  intro p path env hweb hex hsz hmk hff
  have hred : processFile (check_tools p) path env
      = cascade (check_tools p) env
          ((match env.size with
            | SizeRes.exn => [Level.info, Level.error]
            | SizeRes.val _ => [Level.info, Level.debug])
            ++ [Level.debug, Level.debug] ++ mimeLogs env.mimeRes) := by
    simp [processFile, hweb, hex, hsz, hmk]
  rw [hred]
  refine cascade_attempted_after_ffmpeg_miss (check_tools p) env _ (hwt p) ?_
  rcases hff with h | h | h
  · exact Or.inl h
  · refine Or.inr ?_
    rw [ffmpegStrategy_converted]
    simp [h]
  · refine Or.inr ?_
    rw [ffmpegStrategy_converted]
    simp [h]

/-- Claim C9, witness: with no ffmpeg, the scenario file is converted by
attempting webptools and then PIL, in that order. -/
theorem C9_witness :
    (processFile (check_tools .notFound) "a.webp" envAnimated5).attempted
        = [Strategy.webptools] ∨
    (processFile (check_tools .notFound) "a.webp" envAnimated5).attempted
        = [Strategy.webptools, Strategy.pil] ∨
    (processFile (check_tools .notFound) "a.webp" envAnimated5).attempted
        = [Strategy.ffmpeg, Strategy.webptools] ∨
    (processFile (check_tools .notFound) "a.webp" envAnimated5).attempted
        = [Strategy.ffmpeg, Strategy.webptools, Strategy.pil] :=
  C9_webptools_always_usable.2 .notFound "a.webp" envAnimated5
    (by decide) rfl rfl rfl (Or.inl rfl)

/-- Claim C10: when querying the file size raises, the exception handler at
lines 133-134 only logs an error — no failure is recorded at that point, no
precondition error event is emitted, and the strategy cascade still runs on
the file. -/
theorem C10_size_exception_nonfatal (tools : Tools) (path : String)
    (env : FileEnv) (hweb : isWebpName path = true)
    (hex : env.existsOnDisk = true) (hsz : env.size = SizeRes.exn)
    (hmk : env.mkdirOk = true) :
    Level.error ∈ (processFile tools path env).logs ∧
    (processFile tools path env).attempted ≠ [] ∧
    ErrKind.emptyFile ∉ (processFile tools path env).errs ∧
    ErrKind.missingFile ∉ (processFile tools path env).errs := by
  have hred : processFile tools path env
      = cascade tools env
          ([Level.info, Level.error]
            ++ [Level.debug, Level.debug] ++ mimeLogs env.mimeRes) := by
    simp [processFile, hweb, hex, hsz, hmk, sizeIsZero]
  rw [hred]
  refine ⟨?_, cascade_attempted_ne_nil tools env _, ?_, ?_⟩
  · exact cascade_logs_mem tools env _ Level.error (by simp)
  · rcases cascade_errs_from_pil tools env
        ([Level.info, Level.error]
          ++ [Level.debug, Level.debug] ++ mimeLogs env.mimeRes)
      with h | h
    · rw [h]
      simp
    · rw [h]
      exact (pilStrategy_errs_not_precondition env.pil).1
  · rcases cascade_errs_from_pil tools env
        ([Level.info, Level.error]
          ++ [Level.debug, Level.debug] ++ mimeLogs env.mimeRes)
      with h | h
    · rw [h]
      simp
    · rw [h]
      exact (pilStrategy_errs_not_precondition env.pil).2

/-- Claim C10, witness: the scenario file with a size-query exception is
still converted. -/
theorem C10_witness :
    Level.error ∈ (processFile { ffmpeg := false, webptools := true }
        "a.webp" envSizeExn).logs ∧
    (processFile { ffmpeg := false, webptools := true } "a.webp"
        envSizeExn).attempted ≠ [] ∧
    ErrKind.emptyFile ∉ (processFile { ffmpeg := false, webptools := true }
        "a.webp" envSizeExn).errs ∧
    ErrKind.missingFile ∉ (processFile { ffmpeg := false, webptools := true }
        "a.webp" envSizeExn).errs :=
  C10_size_exception_nonfatal { ffmpeg := false, webptools := true }
    "a.webp" envSizeExn (by decide) rfl rfl rfl

end Webp2Gif
